import Mathlib

/-!
Verification of the dejafoo caching proxy (src/index.js) against its
natural-language specification.  The JavaScript handler is shallowly embedded:
JS objects used as string maps become association lists, S3 becomes an
association list from object keys to cache items, `Date.now()` becomes an
explicit `now : Nat` (milliseconds), and the network exchange performed by the
Node http/https module is abstracted by an explicit `FetchOutcome` oracle.
SHA-256 (the Node crypto module digest used by the source) is implemented as an executable
pure function over byte lists.
-/

namespace Dejafoo

/-- Headers and other JS string-map objects, as ordered association lists. -/
abbrev Headers := List (String × String)

/-- Property read on a JS object: first binding wins (keys are unique in JS). -/
def alGet {β : Type} : List (String × β) → String → Option β
  | [], _ => none
  | p :: t, k => if p.1 = k then some p.2 else alGet t k

/-- The JS `delete obj[k]` operation. -/
def alDelete {β : Type} (l : List (String × β)) (k : String) : List (String × β) :=
  l.filter (fun p => ¬ (p.1 = k))

/-- The JS `obj[k] = v` operation: replace in place, else append. -/
def alSet {β : Type} : List (String × β) → String → β → List (String × β)
  | [], k, v => [(k, v)]
  | p :: t, k, v => if p.1 = k then (k, v) :: t else p :: alSet t k v

/-- JS object spread followed by literal properties:
`\x7b...base, k1: v1, ..., kn: vn\x7d`. -/
def objAssign (base : Headers) (updates : List (String × String)) : Headers :=
  updates.foldl (fun acc p => alSet acc p.1 p.2) base

/-- The last value bound to `k` in an update list (later JS properties win). -/
def lookupLast (updates : List (String × String)) (k : String) : Option String :=
  alGet updates.reverse k

/-- JS `a || b` on two possibly-undefined strings; an empty string is falsy. -/
def jsOr (a b : Option String) : Option String :=
  match a with
  | some s => if s = "" then b else some s
  | none => b

/-- JS or-empty idiom: the value when truthy, the empty string otherwise. -/
def jsOrEmpty (a : Option String) : String :=
  match a with
  | some s => s
  | none => ""

/-! SHA-256, as used through the Node crypto module, executable. -/

/-- Truncation to a 32-bit word. -/
def w32 (n : Nat) : Nat := n % 4294967296

/-- Rotation of a 32-bit word right by n bits. -/
def rotr32 (n x : Nat) : Nat := w32 ((x >>> n) ||| (x <<< (32 - n)))

def smallSig0 (x : Nat) : Nat := (rotr32 7 x) ^^^ (rotr32 18 x) ^^^ (x >>> 3)

def smallSig1 (x : Nat) : Nat := (rotr32 17 x) ^^^ (rotr32 19 x) ^^^ (x >>> 10)

def bigSig0 (x : Nat) : Nat := (rotr32 2 x) ^^^ (rotr32 13 x) ^^^ (rotr32 22 x)

def bigSig1 (x : Nat) : Nat := (rotr32 6 x) ^^^ (rotr32 11 x) ^^^ (rotr32 25 x)

/-- The SHA-256 round constants (FIPS 180-4), written in decimal. -/
def sha256K : List Nat :=
  [1116352408, 1899447441, 3049323471, 3921009573, 961987163,
   1508970993, 2453635748, 2870763221, 3624381080, 310598401,
   607225278, 1426881987, 1925078388, 2162078206, 2614888103,
   3248222580, 3835390401, 4022224774, 264347078, 604807628,
   770255983, 1249150122, 1555081692, 1996064986, 2554220882,
   2821834349, 2952996808, 3210313671, 3336571891, 3584528711,
   113926993, 338241895, 666307205, 773529912, 1294757372,
   1396182291, 1695183700, 1986661051, 2177026350, 2456956037,
   2730485921, 2820302411, 3259730800, 3345764771, 3516065817,
   3600352804, 4094571909, 275423344, 430227734, 506948616,
   659060556, 883997877, 958139571, 1322822218, 1537002063,
   1747873779, 1955562222, 2024104815, 2227730452, 2361852424,
   2428436474, 2756734187, 3204031479, 3329325298]

/-- The SHA-256 initial hash state (FIPS 180-4), written in decimal. -/
def sha256H0 : List Nat :=
  [1779033703, 3144134277, 1013904242, 2773480762,
   1359893119, 2600822924, 528734635, 1541459225]

/-- Big-endian 8-byte encoding of the bit length. -/
def bitLenBytes (bits : Nat) : List Nat :=
  [(bits >>> 56) % 256, (bits >>> 48) % 256, (bits >>> 40) % 256,
   (bits >>> 32) % 256, (bits >>> 24) % 256, (bits >>> 16) % 256,
   (bits >>> 8) % 256, bits % 256]

/-- SHA-256 message padding: 0x80, zeros to 56 mod 64, 64-bit length. -/
def sha256Pad (msg : List Nat) : List Nat :=
  let len := msg.length
  let zeros := (119 - (len % 64)) % 64
  msg ++ [128] ++ List.replicate zeros 0 ++ bitLenBytes (len * 8)

/-- Big-endian grouping of bytes into 32-bit words. -/
def bytesToWords : List Nat → List Nat
  | a :: b :: c :: d :: t => (((a * 256 + b) * 256 + c) * 256 + d) :: bytesToWords t
  | _ => []

/-- Split a word list into 16-word blocks (fuel-driven recursion). -/
def toBlocksAux : Nat → List Nat → List (List Nat)
  | 0, _ => []
  | _, [] => []
  | fuel + 1, ws => ws.take 16 :: toBlocksAux fuel (ws.drop 16)

def toBlocks (ws : List Nat) : List (List Nat) := toBlocksAux ws.length ws

/-- Extend the 16-word block by `n` further schedule words. -/
def extendSchedule : Nat → List Nat → List Nat
  | 0, ws => ws
  | n + 1, ws =>
    let l := ws.length
    let nw := w32 (smallSig1 (ws.getD (l - 2) 0) + ws.getD (l - 7) 0 +
                   smallSig0 (ws.getD (l - 15) 0) + ws.getD (l - 16) 0)
    extendSchedule n (ws ++ [nw])

/-- One SHA-256 compression round on the 8-word working state. -/
def sha256Round (st : List Nat) (k w : Nat) : List Nat :=
  match st with
  | [a, b, c, d, e, f, g, h] =>
    let ch := (e &&& f) ^^^ ((e ^^^ 4294967295) &&& g)
    let maj := (a &&& b) ^^^ (a &&& c) ^^^ (b &&& c)
    let t1 := w32 (h + bigSig1 e + ch + k + w)
    let t2 := w32 (bigSig0 a + maj)
    [w32 (t1 + t2), a, b, c, w32 (d + t1), e, f, g]
  | other => other

/-- Compress one 16-word block into the running hash state. -/
def sha256Compress (h : List Nat) (block : List Nat) : List Nat :=
  let ws := extendSchedule 48 block
  let st := (List.zip sha256K ws).foldl (fun s kw => sha256Round s kw.1 kw.2) h
  List.zipWith (fun a b => w32 (a + b)) h st

/-- Big-endian bytes of one 32-bit word. -/
def wordBytes (w : Nat) : List Nat :=
  [(w >>> 24) % 256, (w >>> 16) % 256, (w >>> 8) % 256, w % 256]

/-- SHA-256 digest (32 bytes) of a byte list. -/
def sha256 (msg : List Nat) : List Nat :=
  let blocks := toBlocks (bytesToWords (sha256Pad msg))
  ((blocks.foldl sha256Compress sha256H0).map wordBytes).flatten

/-- Lowercase hex digit. -/
def hexDigit (n : Nat) : Char :=
  if n < 10 then Char.ofNat (48 + n) else Char.ofNat (87 + n)

/-- Lowercase hex encoding of a byte list. -/
def bytesToHex (bs : List Nat) : String :=
  String.mk ((bs.map (fun b => [hexDigit (b / 16), hexDigit (b % 16)])).flatten)

/-- UTF-8 encoding of one character. -/
def utf8Char (c : Char) : List Nat :=
  let n := c.toNat
  if n < 128 then [n]
  else if n < 2048 then [192 ||| (n >>> 6), 128 ||| (n &&& 63)]
  else if n < 65536 then
    [224 ||| (n >>> 12), 128 ||| ((n >>> 6) &&& 63), 128 ||| (n &&& 63)]
  else
    [240 ||| (n >>> 18), 128 ||| ((n >>> 12) &&& 63),
     128 ||| ((n >>> 6) &&& 63), 128 ||| (n &&& 63)]

/-- UTF-8 encoding of a string. -/
def utf8Encode (s : String) : List Nat := (s.data.map utf8Char).flatten

/-- Lowercase hex SHA-256 digest of the UTF-8 bytes of a string, as the
source computes via the crypto module. -/
def sha256Hex (s : String) : String := bytesToHex (sha256 (utf8Encode s))

/-! ## TTL parsing (src/index.js lines 10-30) -/

/-- Default TTL: the CACHE_TTL_SECONDS environment variable, 3600 when unset. -/
def DEFAULT_TTL_SECONDS : Nat := 3600

/-- Digits of `match[1]` as a number (`parseInt` on a digit-only string). -/
def digitsToNat (ds : List Char) : Nat :=
  ds.foldl (fun a c => a * 10 + (c.toNat - 48)) 0

/-- The regex `^(\d+)([smhd])$`: the digit group and the unit on success. -/
def ttlMatch (s : String) : Option (Nat × Char) :=
  let cs := s.data
  match cs.takeWhile Char.isDigit, cs.dropWhile Char.isDigit with
  | [], _ => none
  | ds, [u] =>
    if u = 's' ∨ u = 'm' ∨ u = 'h' ∨ u = 'd' then some (digitsToNat ds, u) else none
  | _, _ => none

/-- Embeds `parseTTL` (src/index.js:14-30); the argument is the raw `ttl`
query parameter, `none` when absent; an empty string is falsy in the
`!ttlString` guard. -/
def parseTTL (ttlString : Option String) : Nat :=
  match ttlString with
  | none => DEFAULT_TTL_SECONDS
  | some s =>
    if s = "" then DEFAULT_TTL_SECONDS
    else
      match ttlMatch s with
      | none => DEFAULT_TTL_SECONDS
      | some (value, unit) =>
        if unit = 's' then value
        else if unit = 'm' then value * 60
        else if unit = 'h' then value * 3600
        else if unit = 'd' then value * 86400
        else DEFAULT_TTL_SECONDS

/-! ## Cache key (src/index.js lines 32-71) -/

/-- Minimal JSON string escaping used by `JSON.stringify` on plain text. -/
def jsonEscape (s : String) : String :=
  String.mk (s.data.flatMap (fun c =>
    if c = '\\' then ['\\', '\\']
    else if c = '\"' then ['\\', '\"']
    else [c]))

/-- Encoding by `JSON.stringify` of a flat string-valued object; the handler only ever
passes the empty object `\x7b\x7d` here (src/index.js:264). -/
def jsonStringifyObj (l : List (String × String)) : String :=
  "\x7b" ++
    String.intercalate ","
      (l.map (fun p => "\"" ++ jsonEscape p.1 ++ "\":\"" ++ jsonEscape p.2 ++ "\"")) ++
  "\x7d"

/-- Headers deleted from `cacheableHeaders` (src/index.js:37-48). -/
def keyStrippedNames : List String :=
  ["connection", "upgrade", "transfer-encoding", "proxy-connection",
   "proxy-authenticate", "proxy-authorization", "te", "trailers", "host",
   "x-forwarded-for", "x-forwarded-proto", "x-forwarded-port"]

/-- CloudFront header names deleted from `cacheableHeaders` (src/index.js:51-62). -/
def cloudfrontHeaderNames : List String :=
  ["cloudfront-forwarded-proto", "CloudFront-Forwarded-Proto",
   "cloudfront-is-desktop-viewer", "CloudFront-Is-Desktop-Viewer",
   "cloudfront-is-mobile-viewer", "CloudFront-Is-Mobile-Viewer",
   "cloudfront-is-smarttv-viewer", "CloudFront-Is-SmartTV-Viewer",
   "cloudfront-is-tablet-viewer", "CloudFront-Is-Tablet-Viewer",
   "cloudfront-viewer-asn", "CloudFront-Viewer-ASN",
   "cloudfront-viewer-country", "CloudFront-Viewer-Country",
   "x-amz-cf-id", "X-Amz-Cf-Id",
   "x-amzn-trace-id", "X-Amzn-Trace-Id",
   "via", "Via"]

/-- Embeds `generateCacheKey` (src/index.js:33-71).  `cacheableHeaders` is computed
exactly as in the source and, exactly as in the source, does not flow into
`keyData`: the key hashes only subdomain, method, target URL, the stringified
`queryParams` object, payload and raw TTL. -/
def generateCacheKey (subdomain targetUrl : String)
    (queryParams : List (String × String)) (headers : Headers)
    (method : String) (payload ttl : Option String) : String :=
  let cacheableHeaders :=
    (keyStrippedNames ++ cloudfrontHeaderNames).foldl alDelete headers
  let keyData :=
    subdomain ++ ":" ++ method ++ ":" ++ targetUrl ++ ":" ++
      jsonStringifyObj queryParams ++ ":" ++ jsOrEmpty payload ++ ":" ++
      jsOrEmpty ttl
  sha256Hex keyData

/-! ## Cache engine over S3 (src/index.js lines 73-138) -/

/-- The JSON cache item persisted at `cache/<key>/response.json`
(src/index.js:116-123). -/
structure CacheItem where
  statusCode : Nat
  headers : Headers
  body : String
  expiresAt : Nat
  ttl : Nat
  cachedAt : Nat
  deriving Repr, DecidableEq

/-- The S3 bucket, modeled as an association list keyed by object key. -/
abbrev Store := List (String × CacheItem)

/-- The object key `cache/<cacheKey>/response.json` (src/index.js:76,125). -/
def s3Key (cacheKey : String) : String := "cache/" ++ cacheKey ++ "/response.json"

/-- Embeds `getCachedResponse` (src/index.js:74-109): `now` is `Date.now()` in
milliseconds.  Returns the cached item on a valid hit; on an expired entry
deletes it and returns `none`; a missing object (`NoSuchKey`) is a miss. -/
def getCachedResponse (store : Store) (now : Nat) (cacheKey : String) :
    Option CacheItem × Store :=
  match alGet store (s3Key cacheKey) with
  | none => (none, store)
  | some item =>
    if now < item.expiresAt then (some item, store)
    else (none, alDelete store (s3Key cacheKey))

/-- The sanitized upstream response resolved by `fetchFromTarget`
(src/index.js:198-202). -/
structure CachedResponse where
  statusCode : Nat
  headers : Headers
  body : String
  deriving Repr, DecidableEq

/-- Embeds `cacheResponse` (src/index.js:112-138): stores the item with
`expiresAt = Date.now() + ttlSeconds * 1000`. -/
def cacheResponse (store : Store) (now : Nat) (cacheKey : String)
    (response : CachedResponse) (ttlSeconds : Nat) : Store :=
  let expiresAt := now + ttlSeconds * 1000
  alSet store (s3Key cacheKey)
    ⟨response.statusCode, response.headers, response.body, expiresAt, ttlSeconds, now⟩

/-! ## Upstream fetch (src/index.js lines 140-223) -/

/-- A JS exception value; only the `message` property is ever read. -/
inductive JsError where
  | typeError (message : String)
  | jsError (message : String)
  deriving Repr, DecidableEq

def JsError.message : JsError → String
  | .typeError m => m
  | .jsError m => m

/-- Scheme-shaped prefix: `[A-Za-z][A-Za-z0-9+.-]*` followed by `:`.  The
WHATWG `new URL(s)` constructor throws exactly when no such absolute form is
present (no base URL is supplied in the source). -/
def parseURLScheme (s : String) : Option String :=
  match s.data with
  | [] => none
  | c :: rest =>
    if c.isAlpha then
      let schemeRest := rest.takeWhile (fun d =>
        d.isAlpha ∨ d.isDigit ∨ d = '+' ∨ d = '.' ∨ d = '-')
      match rest.dropWhile (fun d =>
        d.isAlpha ∨ d.isDigit ∨ d = '+' ∨ d = '.' ∨ d = '-') with
      | ':' :: _ => some (String.mk (c :: schemeRest))
      | _ => none
    else none

/-- The network exchange performed by the Node `http`/`https` request, as an
oracle: the raw upstream response, a transport error event, or the
30-second timeout event. -/
inductive FetchOutcome where
  | success (statusCode : Nat) (headers : Headers) (body : String)
  | transportError (message : String)
  | timeout
  deriving Repr, DecidableEq

/-- Request headers deleted before contacting the upstream
(src/index.js:149-157). -/
def requestStrippedNames : List String :=
  ["connection", "upgrade", "transfer-encoding", "proxy-connection",
   "proxy-authenticate", "proxy-authorization", "te", "trailers", "host"]

/-- Upstream response headers deleted before storing and replying
(src/index.js:186-196). -/
def responseStrippedNames : List String :=
  ["content-encoding", "content-length", "transfer-encoding", "connection",
   "upgrade", "keep-alive", "proxy-authenticate", "proxy-authorization",
   "te", "trailers", "cache-control"]

/-- Header sanitization applied to the upstream response (src/index.js:185-196);
the Node http module delivers response header names lowercased. -/
def sanitizeUpstreamHeaders (h : Headers) : Headers :=
  responseStrippedNames.foldl alDelete h

/-- Embeds `fetchFromTarget` (src/index.js:141-223).  `new URL(targetUrl)` throws on a
non-absolute URL; otherwise the request is issued (whatever the scheme: the
source selects the `http` module for anything that is not `https:`) and the
oracle decides the outcome.  On success the response headers are sanitized
before the promise resolves; an error or timeout rejects the promise. -/
def fetchFromTarget (targetUrl method : String) (headers : Headers)
    (body : Option String) (outcome : FetchOutcome) :
    Except JsError CachedResponse :=
  match parseURLScheme targetUrl with
  | none => .error (.typeError ("Invalid URL: " ++ targetUrl))
  | some _scheme =>
    let cleanHeaders := requestStrippedNames.foldl alDelete headers
    let _outboundHeaders := alSet cleanHeaders "Accept-Encoding" "identity"
    match outcome with
    | .success statusCode rawHeaders respBody =>
      .ok ⟨statusCode, sanitizeUpstreamHeaders rawHeaders, respBody⟩
    | .transportError m => .error (.jsError m)
    | .timeout => .error (.jsError "Request timeout")

/-! ## Handler (src/index.js lines 226-347) -/

/-- The Lambda proxy event fields the handler reads (plus `path`, which it
never reads). -/
structure LambdaEvent where
  httpMethod : String
  path : String
  headers : Option Headers
  queryStringParameters : Option (List (String × String))
  body : Option String

/-- The reply record `\x7bstatusCode, headers, body\x7d`. -/
structure Reply where
  statusCode : Nat
  headers : Headers
  body : String
  deriving Repr, DecidableEq

/-- Reads `event.headers.Host || event.headers.host` (src/index.js:231). -/
def jsHost (hs : Headers) : Option String := jsOr (alGet hs "Host") (alGet hs "host")

/-- Leftmost dot-separated label: the characters before the first dot,
which is what splitting at dots and taking index 0 yields. -/
def splitHeadDot (h : String) : String :=
  String.mk (h.data.takeWhile (fun c => ¬ (c = '.')))

/-- Embeds the subdomain expression (src/index.js:232): the leftmost dot
label of a truthy host, the literal default tenant otherwise. -/
def eventSubdomain (hs : Headers) : String :=
  match jsHost hs with
  | none => "default"
  | some h => if h = "" then "default" else splitHeadDot h

/-- The CORS header block shared by the 400 reply and both success replies. -/
def corsHeaders : List (String × String) :=
  [("Access-Control-Allow-Origin", "*"),
   ("Access-Control-Allow-Methods", "GET, POST, PUT, DELETE, OPTIONS"),
   ("Access-Control-Allow-Headers", "Content-Type, Authorization, X-Requested-With")]

/-- The 400 reply for a missing `url` parameter (src/index.js:240-256). -/
def badRequestReply : Reply :=
  { statusCode := 400
    headers := ("Content-Type", "application/json") :: corsHeaders
    body := "\x7b\"error\":\"Missing required parameter: url\",\"usage\":\"https://\x7bsubdomain\x7d.dejafoo.io?url=\x7btarget_url\x7d&ttl=\x7bduration\x7d\",\"examples\":[\"https://myapp.dejafoo.io?url=https://api.example.com/data&ttl=1h\",\"https://test.dejafoo.io?url=https://jsonplaceholder.typicode.com/todos/1&ttl=2d\"]\x7d" }

/-- The fixed outbound `Cache-Control` value (src/index.js:283,320). -/
def cacheControlValue : String :=
  "no-cache, no-store, must-revalidate, private, max-age=0, s-maxage=0"

/-- The literal properties merged over the cached headers on a HIT
(src/index.js:277-291). -/
def hitUpdates (cacheKey : String) (timeUntilExpiry : Nat) (nowIso : String) :
    List (String × String) :=
  [("X-Cache", "HIT"),
   ("X-Cache-Key", cacheKey),
   ("X-Cache-Expires-In", toString timeUntilExpiry ++ "s"),
   ("X-Response-Time", nowIso),
   ("Cache-Control", cacheControlValue),
   ("Pragma", "no-cache"),
   ("Expires", "0"),
   ("Surrogate-Control", "no-store"),
   ("X-Cache-Control", "no-cache, no-store, must-revalidate")] ++ corsHeaders

/-- The literal properties merged over the fetched headers on a MISS
(src/index.js:313-328). -/
def missUpdates (cacheKey : String) (ttlSeconds : Nat) (targetUrl nowIso : String) :
    List (String × String) :=
  [("X-Cache", "MISS"),
   ("X-Cache-Key", cacheKey),
   ("X-Cache-Expires-In", toString ttlSeconds ++ "s"),
   ("X-Target-URL", targetUrl),
   ("X-Response-Time", nowIso),
   ("Cache-Control", cacheControlValue),
   ("Pragma", "no-cache"),
   ("Expires", "0"),
   ("Surrogate-Control", "no-store"),
   ("X-Cache-Control", "no-cache, no-store, must-revalidate")] ++ corsHeaders

/-- The HIT reply (src/index.js:269-294).  `expiresAt || now + ttl*1000`
falls back when the stored value is falsy (0), and
`Math.max(0, Math.floor((expiresAt - now) / 1000))` is truncated Nat
subtraction and division here. -/
def hitReply (cacheKey : String) (now : Nat) (nowIso : String) (c : CacheItem) :
    Reply :=
  let expiresAt := if c.expiresAt = 0 then now + c.ttl * 1000 else c.expiresAt
  let timeUntilExpiry := (expiresAt - now) / 1000
  { statusCode := c.statusCode
    headers := objAssign c.headers (hitUpdates cacheKey timeUntilExpiry nowIso)
    body := c.body }

/-- The MISS reply (src/index.js:311-330). -/
def missReply (cacheKey : String) (ttlSeconds : Nat) (targetUrl nowIso : String)
    (r : CachedResponse) : Reply :=
  { statusCode := r.statusCode
    headers := objAssign r.headers (missUpdates cacheKey ttlSeconds targetUrl nowIso)
    body := r.body }

/-- The 500 reply built in the catch block (src/index.js:335-345). -/
def internalErrorReply (message : String) : Reply :=
  { statusCode := 500
    headers := [("Content-Type", "application/json"),
                ("Access-Control-Allow-Origin", "*")]
    body := "\x7b\"error\":\"Internal server error\",\"message\":\"" ++
            jsonEscape message ++ "\"\x7d" }

/-- Embeds the body of the handler `try` block (src/index.js:227-330), with the S3
state threaded explicitly; a thrown JS exception is an `Except.error` carrying
the store as it stood when the exception was raised.  Reading
`event.headers.Host` on an absent headers object throws a `TypeError`. -/
def handlerTry (event : LambdaEvent) (store : Store) (now : Nat)
    (nowIso : String) (outcome : FetchOutcome) :
    Except JsError Reply × Store :=
  match event.headers with
  | none =>
    (.error (.typeError "Cannot read properties of undefined (reading Host)"),
     store)
  | some hs =>
    let subdomain := eventSubdomain hs
    let queryParams := event.queryStringParameters.getD []
    let targetUrl := alGet queryParams "url"
    let ttlString := alGet queryParams "ttl"
    match targetUrl with
    | none => (.ok badRequestReply, store)
    | some u =>
      if u = "" then (.ok badRequestReply, store)
      else
        let ttlSeconds := parseTTL ttlString
        let cacheKey :=
          generateCacheKey subdomain u [] hs event.httpMethod event.body ttlString
        match getCachedResponse store now cacheKey with
        | (some cachedResponse, store1) =>
          (.ok (hitReply cacheKey now nowIso cachedResponse), store1)
        | (none, store1) =>
          match fetchFromTarget u event.httpMethod hs event.body outcome with
          | .error e => (.error e, store1)
          | .ok response =>
            let store2 := cacheResponse store1 now cacheKey response ttlSeconds
            (.ok (missReply cacheKey ttlSeconds u nowIso response), store2)

/-- Embeds `exports.handler` (src/index.js:226-347): the `try` body with the catch
block mapping any thrown error to the 500 reply. -/
def handler (event : LambdaEvent) (store : Store) (now : Nat)
    (nowIso : String) (outcome : FetchOutcome) : Reply × Store :=
  match handlerTry event store now nowIso outcome with
  | (.ok r, st) => (r, st)
  | (.error e, st) => (internalErrorReply e.message, st)

/-! ## Association-list lemmas -/

theorem alGet_alSet {β : Type} (l : List (String × β)) (k : String) (v : β)
    (k' : String) :
    alGet (alSet l k v) k' = if k = k' then some v else alGet l k' := by
  induction l with
  | nil => simp [alSet, alGet]
  | cons p t ih =>
    by_cases h : p.1 = k
    · by_cases h2 : k = k' <;> simp [alSet, alGet, h, h2]
    · by_cases h2 : k = k'
      · subst h2
        simp [alSet, alGet, h, ih]
      · simp [alSet, alGet, h, h2, ih]

theorem alGet_alDelete {β : Type} (l : List (String × β)) (k k' : String) :
    alGet (alDelete l k) k' = if k = k' then none else alGet l k' := by
  induction l with
  | nil => simp [alDelete, alGet]
  | cons p t ih =>
    by_cases h : p.1 = k <;> by_cases h2 : k = k' <;>
      simp_all [alDelete, alGet, List.filter]

theorem alGet_foldl_alDelete {β : Type} (names : List String)
    (l : List (String × β)) (n : String) :
    alGet (names.foldl alDelete l) n = if n ∈ names then none else alGet l n := by
  induction names generalizing l with
  | nil => simp
  | cons m ms ih =>
    simp only [List.foldl_cons, ih, alGet_alDelete, List.mem_cons]
    by_cases h1 : n ∈ ms <;> by_cases h2 : m = n
    · simp [h1]
    · simp [h1]
    · simp [h1, h2]
    · have h2' : ¬ n = m := fun h => h2 h.symm
      simp [h1, h2, h2']

theorem alGet_append {β : Type} (l1 l2 : List (String × β)) (k : String) :
    alGet (l1 ++ l2) k =
      match alGet l1 k with
      | some v => some v
      | none => alGet l2 k := by
  induction l1 with
  | nil => simp [alGet]
  | cons p t ih => by_cases h : p.1 = k <;> simp [alGet, h, ih]

theorem lookupLast_cons (p : String × String) (rest : List (String × String))
    (k : String) :
    lookupLast (p :: rest) k =
      match lookupLast rest k with
      | some v => some v
      | none => if p.1 = k then some p.2 else none := by
  simp only [lookupLast, List.reverse_cons, alGet_append]
  cases alGet rest.reverse k <;> simp [alGet]

theorem alGet_objAssign (base : Headers) (updates : List (String × String))
    (k : String) :
    alGet (objAssign base updates) k =
      match lookupLast updates k with
      | some v => some v
      | none => alGet base k := by
  induction updates generalizing base with
  | nil => simp [objAssign, lookupLast, alGet]
  | cons p rest ih =>
    simp only [objAssign, List.foldl_cons] at ih ⊢
    rw [ih, lookupLast_cons, alGet_alSet]
    cases lookupLast rest k <;> by_cases h : p.1 = k <;> simp [h]

/-! ## Claim theorems -/

/-- The request headers argument of `generateCacheKey` never reaches
`keyData`: only the dead `cacheableHeaders` binding uses it. -/
theorem generateCacheKey_headers_eq (sub u : String)
    (qp : List (String × String)) (h1 h2 : Headers) (m : String)
    (b t : Option String) :
    generateCacheKey sub u qp h1 m b t = generateCacheKey sub u qp h2 m b t := rfl

/-- The fetch result never depends on the inbound request headers: they only
feed the outbound request, not the oracle-decided response. -/
theorem fetchFromTarget_headers_eq (u m : String) (h1 h2 : Headers)
    (b : Option String) (oc : FetchOutcome) :
    fetchFromTarget u m h1 b oc = fetchFromTarget u m h2 b oc := rfl

/-- Claim C1: two inbound requests that agree byte-for-byte on
(tenant, method, target URL, body, raw TTL string) receive the same
fingerprint, whatever their other request headers, their inbound path, and
their inbound query parameters other than `url` and `ttl`; the fingerprint is
observed through the `X-Cache-Key` reply header. -/
theorem cacheKey_independent_of_headers_path_query
    (p1 p2 m u : String) (h1 h2 : Headers) (qp1 qp2 : List (String × String))
    (b t : Option String) (store : Store) (now : Nat) (iso : String)
    (oc : FetchOutcome)
    (hsub : eventSubdomain h1 = eventSubdomain h2)
    (hu1 : alGet qp1 "url" = some u) (hu2 : alGet qp2 "url" = some u)
    (hne : ¬ u = "")
    (ht1 : alGet qp1 "ttl" = t) (ht2 : alGet qp2 "ttl" = t) :
    alGet (handler ⟨m, p1, some h1, some qp1, b⟩ store now iso oc).1.headers
        "X-Cache-Key" =
      alGet (handler ⟨m, p2, some h2, some qp2, b⟩ store now iso oc).1.headers
        "X-Cache-Key" := by
  unfold handler handlerTry
  simp only [Option.getD_some, hu1, hu2, ht1, ht2, hsub, hne, if_false,
    generateCacheKey_headers_eq (eventSubdomain h2) u [] h1 h2 m b t,
    fetchFromTarget_headers_eq u m h1 h2 b oc]

/-- Witness for C1 at a concrete pair of requests differing in path, an
`Authorization` header, and an extra query parameter. -/
theorem cacheKey_independent_witness :
    alGet (handler ⟨"GET", "/a",
        some [("Host", "t1.example.com"), ("Authorization", "Bearer aaa")],
        some [("url", "https://api.example.com/data"), ("ttl", "1h"), ("x", "1")],
        none⟩ [] 0 "iso" (.success 200 [] "ok")).1.headers "X-Cache-Key" =
      alGet (handler ⟨"GET", "/b", some [("Host", "t1.example.com")],
        some [("ttl", "1h"), ("url", "https://api.example.com/data")],
        none⟩ [] 0 "iso" (.success 200 [] "ok")).1.headers "X-Cache-Key" :=
  cacheKey_independent_of_headers_path_query "/a" "/b" "GET"
    "https://api.example.com/data" _ _ _ _ none (some "1h") [] 0 "iso" _
    (by decide) (by decide) (by decide) (by decide) (by decide) (by decide)

/-- ASCII uppercasing of a method token. -/
def asciiUpper (s : String) : String := String.mk (s.data.map Char.toUpper)

/-- The fingerprint formula as the specification words it (§4.2): SHA-256 over
the colon-joined tenant, uppercased method, target URL, literal `\x7b\x7d`,
body-or-empty, and raw-TTL-or-empty. -/
def specFingerprint (tenant method targetUrl : String)
    (body ttlRaw : Option String) : String :=
  sha256Hex (tenant ++ ":" ++ asciiUpper method ++ ":" ++ targetUrl ++ ":" ++
    "\x7b\x7d" ++ ":" ++ jsOrEmpty body ++ ":" ++ jsOrEmpty ttlRaw)

/-- Claim C2: for every request descriptor (whose method is one of the
method enum of the specification, all uppercase), the cache key is the lowercase
hex SHA-256 of the colon-joined tenant, uppercased method, target URL,
literal `\x7b\x7d`, body-or-empty and raw-TTL-or-empty, independent of the
headers argument. -/
theorem generateCacheKey_matches_spec_formula
    (tenant targetUrl m : String) (headers : Headers) (body ttl : Option String)
    (hm : m = "GET" ∨ m = "POST" ∨ m = "PUT" ∨ m = "PATCH" ∨ m = "DELETE" ∨
          m = "HEAD" ∨ m = "OPTIONS") :
    generateCacheKey tenant targetUrl [] headers m body ttl =
      specFingerprint tenant m targetUrl body ttl := by
  have hjson : jsonStringifyObj ([] : List (String × String)) = "\x7b\x7d" := rfl
  rcases hm with rfl | rfl | rfl | rfl | rfl | rfl | rfl <;>
    simp only [generateCacheKey, specFingerprint, hjson] <;>
    exact congrArg sha256Hex rfl

/-- Witness for C2 at a concrete descriptor. -/
theorem generateCacheKey_matches_spec_formula_witness :
    generateCacheKey "t1" "https://x" [] [("Authorization", "b")] "GET" none
        (some "1h") =
      specFingerprint "t1" "GET" "https://x" none (some "1h") :=
  generateCacheKey_matches_spec_formula "t1" "https://x" "GET"
    [("Authorization", "b")] none (some "1h") (Or.inl rfl)

/-- Claim C3: an entry cached at time `t` (ms) with TTL `tau` seconds is
returned — and marked HIT — by any read at `t' ∈ [t, t + 1000·tau)`, and the
first read at `t' ≥ t + 1000·tau` deletes the stored object (lazy reap) and
returns `none`, which sends the handler down the MISS path. -/
theorem cache_ttl_hit_and_lazy_reap
    (store : Store) (key iso : String) (resp : CachedResponse) (tau t t' : Nat) :
    (t ≤ t' → t' < t + tau * 1000 →
      getCachedResponse (cacheResponse store t key resp tau) t' key =
        (some ⟨resp.statusCode, resp.headers, resp.body, t + tau * 1000, tau, t⟩,
         cacheResponse store t key resp tau) ∧
      alGet (hitReply key t' iso ⟨resp.statusCode, resp.headers, resp.body,
          t + tau * 1000, tau, t⟩).headers "X-Cache" = some "HIT") ∧
    (t + tau * 1000 ≤ t' →
      getCachedResponse (cacheResponse store t key resp tau) t' key =
        (none, alDelete (cacheResponse store t key resp tau) (s3Key key))) := by
  constructor
  · intro _h1 h2
    constructor
    · simp [getCachedResponse, cacheResponse, alGet_alSet, h2]
    · simp only [hitReply]
      rw [alGet_objAssign]
      simp [hitUpdates, corsHeaders, lookupLast, alGet]
  · intro h1
    have h2 : ¬ (t' < t + tau * 1000) := not_lt.mpr h1
    simp [getCachedResponse, cacheResponse, alGet_alSet, h2]

/-- Witness for C3: a 2-second entry written at t = 1000 ms is a HIT at
1500 ms and is reaped at 3000 ms. -/
theorem cache_ttl_hit_and_lazy_reap_witness :
    (getCachedResponse (cacheResponse [] 1000 "k" ⟨200, [], "ok"⟩ 2) 1500 "k" =
       (some ⟨200, [], "ok", 3000, 2, 1000⟩,
        cacheResponse [] 1000 "k" ⟨200, [], "ok"⟩ 2) ∧
     alGet (hitReply "k" 1500 "iso" ⟨200, [], "ok", 3000, 2, 1000⟩).headers
         "X-Cache" = some "HIT") ∧
    getCachedResponse (cacheResponse [] 1000 "k" ⟨200, [], "ok"⟩ 2) 3000 "k" =
      (none, alDelete (cacheResponse [] 1000 "k" ⟨200, [], "ok"⟩ 2) (s3Key "k")) :=
  ⟨(cache_ttl_hit_and_lazy_reap [] "k" "iso" ⟨200, [], "ok"⟩ 2 1000 1500).1
      (by decide) (by decide),
   (cache_ttl_hit_and_lazy_reap [] "k" "iso" ⟨200, [], "ok"⟩ 2 1000 3000).2
      (by decide)⟩

/-- Claim C4: a MISS reply built from any upstream response, and a HIT reply
built from any entry cached from such a response, carry none of the upstream
`content-encoding`, `content-length`, `transfer-encoding`, `connection` or
`cache-control` headers (Node delivers upstream header names lowercased), and
their outbound `Cache-Control` is exactly the fixed no-store ensemble. -/
theorem reply_header_purity (H : Headers) (sc : Nat) (body key u iso : String)
    (ttl now cachedAt expiresAt : Nat) :
    (alGet (missReply key ttl u iso ⟨sc, sanitizeUpstreamHeaders H, body⟩).headers
       "content-encoding" = none) ∧
    (alGet (missReply key ttl u iso ⟨sc, sanitizeUpstreamHeaders H, body⟩).headers
       "content-length" = none) ∧
    (alGet (missReply key ttl u iso ⟨sc, sanitizeUpstreamHeaders H, body⟩).headers
       "transfer-encoding" = none) ∧
    (alGet (missReply key ttl u iso ⟨sc, sanitizeUpstreamHeaders H, body⟩).headers
       "connection" = none) ∧
    (alGet (missReply key ttl u iso ⟨sc, sanitizeUpstreamHeaders H, body⟩).headers
       "cache-control" = none) ∧
    (alGet (missReply key ttl u iso ⟨sc, sanitizeUpstreamHeaders H, body⟩).headers
       "Cache-Control" = some cacheControlValue) ∧
    (alGet (hitReply key now iso ⟨sc, sanitizeUpstreamHeaders H, body,
        expiresAt, ttl, cachedAt⟩).headers "content-encoding" = none) ∧
    (alGet (hitReply key now iso ⟨sc, sanitizeUpstreamHeaders H, body,
        expiresAt, ttl, cachedAt⟩).headers "content-length" = none) ∧
    (alGet (hitReply key now iso ⟨sc, sanitizeUpstreamHeaders H, body,
        expiresAt, ttl, cachedAt⟩).headers "transfer-encoding" = none) ∧
    (alGet (hitReply key now iso ⟨sc, sanitizeUpstreamHeaders H, body,
        expiresAt, ttl, cachedAt⟩).headers "connection" = none) ∧
    (alGet (hitReply key now iso ⟨sc, sanitizeUpstreamHeaders H, body,
        expiresAt, ttl, cachedAt⟩).headers "cache-control" = none) ∧
    (alGet (hitReply key now iso ⟨sc, sanitizeUpstreamHeaders H, body,
        expiresAt, ttl, cachedAt⟩).headers "Cache-Control" =
       some cacheControlValue) := by
  refine ⟨?_, ?_, ?_, ?_, ?_, ?_, ?_, ?_, ?_, ?_, ?_, ?_⟩ <;>
    simp only [missReply, hitReply] <;> rw [alGet_objAssign] <;>
    simp [missUpdates, hitUpdates, corsHeaders, lookupLast, alGet,
      sanitizeUpstreamHeaders, alGet_alDelete, responseStrippedNames]

/-- Counterexample to claim C5: the handler has no 502/504 mapping.  A DNS
failure (`getaddrinfo ENOTFOUND`) yields 500, not 502, and the 30-second
timeout yields 500, not 504. -/
theorem upstream_failure_status_counterexample :
    (handler ⟨"GET", "/", some [("Host", "t.example.com")],
        some [("url", "https://api.example.com/x")], none⟩ [] 0 "iso"
        (.transportError "getaddrinfo ENOTFOUND api.example.com")).1.statusCode
      = 500 ∧
    ¬ ((handler ⟨"GET", "/", some [("Host", "t.example.com")],
        some [("url", "https://api.example.com/x")], none⟩ [] 0 "iso"
        (.transportError "getaddrinfo ENOTFOUND api.example.com")).1.statusCode
      = 502) ∧
    (handler ⟨"GET", "/", some [("Host", "t.example.com")],
        some [("url", "https://api.example.com/x")], none⟩ [] 0 "iso"
        .timeout).1.statusCode = 500 ∧
    ¬ ((handler ⟨"GET", "/", some [("Host", "t.example.com")],
        some [("url", "https://api.example.com/x")], none⟩ [] 0 "iso"
        .timeout).1.statusCode = 504) := by
  decide

/-- Claim C5 (amended): on a cold cache, a transport-level upstream failure
and the 30-second timeout both surface through the catch block as HTTP 500
with the `Internal server error` JSON body — never 502 or 504 (the timeout
does abort the request: `req.destroy()` then reject). -/
theorem upstream_failure_maps_to_500
    (m p u iso msg sch : String) (hs : Headers) (qp : List (String × String))
    (b : Option String) (now : Nat)
    (hu : alGet qp "url" = some u) (hne : ¬ u = "")
    (hp : parseURLScheme u = some sch) :
    (handler ⟨m, p, some hs, some qp, b⟩ [] now iso (.transportError msg)).1 =
      internalErrorReply msg ∧
    (handler ⟨m, p, some hs, some qp, b⟩ [] now iso .timeout).1 =
      internalErrorReply "Request timeout" ∧
    (handler ⟨m, p, some hs, some qp, b⟩ [] now iso
        (.transportError msg)).1.statusCode = 500 ∧
    (handler ⟨m, p, some hs, some qp, b⟩ [] now iso .timeout).1.statusCode
      = 500 := by
  have hmain : ∀ oc : FetchOutcome,
      handlerTry ⟨m, p, some hs, some qp, b⟩ [] now iso oc =
        (match fetchFromTarget u m hs b oc with
         | .error e => (.error e, [])
         | .ok response =>
           let key := generateCacheKey (eventSubdomain hs) u [] hs m b
             (alGet qp "ttl")
           (.ok (missReply key (parseTTL (alGet qp "ttl")) u iso response),
            cacheResponse [] now key response (parseTTL (alGet qp "ttl")))) := by
    intro oc
    simp only [handlerTry, Option.getD_some, hu, hne, if_false,
      getCachedResponse, alGet, s3Key]
  have h1 : (handler ⟨m, p, some hs, some qp, b⟩ [] now iso
      (.transportError msg)).1 = internalErrorReply msg := by
    simp [handler, hmain, fetchFromTarget, hp, JsError.message]
  have h2 : (handler ⟨m, p, some hs, some qp, b⟩ [] now iso .timeout).1 =
      internalErrorReply "Request timeout" := by
    simp [handler, hmain, fetchFromTarget, hp, JsError.message]
  exact ⟨h1, h2, by rw [h1]; rfl, by rw [h2]; rfl⟩

/-- Witness for the amended C5 at a concrete request. -/
theorem upstream_failure_maps_to_500_witness :
    (handler ⟨"GET", "/", some [("Host", "t.example.com")],
        some [("url", "https://api.example.com/x")], none⟩ [] 0 "iso"
        (.transportError "connect ECONNREFUSED")).1 =
      internalErrorReply "connect ECONNREFUSED" ∧
    (handler ⟨"GET", "/", some [("Host", "t.example.com")],
        some [("url", "https://api.example.com/x")], none⟩ [] 0 "iso"
        .timeout).1 = internalErrorReply "Request timeout" ∧
    (handler ⟨"GET", "/", some [("Host", "t.example.com")],
        some [("url", "https://api.example.com/x")], none⟩ [] 0 "iso"
        (.transportError "connect ECONNREFUSED")).1.statusCode = 500 ∧
    (handler ⟨"GET", "/", some [("Host", "t.example.com")],
        some [("url", "https://api.example.com/x")], none⟩ [] 0 "iso"
        .timeout).1.statusCode = 500 :=
  upstream_failure_maps_to_500 "GET" "/" "https://api.example.com/x" "iso"
    "connect ECONNREFUSED" "https" [("Host", "t.example.com")]
    [("url", "https://api.example.com/x")] none 0 (by decide) (by decide)
    (by decide)

/-- Counterexample to claim C6: a non-absolute `url` value makes `new URL`
throw, producing 500 (not 400), and an `ftp://` target is not rejected at
all — the upstream exchange happens and its response is served as a MISS. -/
theorem invalid_target_url_counterexample :
    (handler ⟨"GET", "/", some [("Host", "t.example.com")],
        some [("url", "notaurl")], none⟩ [] 0 "iso"
        (.success 200 [] "ok")).1.statusCode = 500 ∧
    ¬ ((handler ⟨"GET", "/", some [("Host", "t.example.com")],
        some [("url", "notaurl")], none⟩ [] 0 "iso"
        (.success 200 [] "ok")).1.statusCode = 400) ∧
    (handler ⟨"GET", "/", some [("Host", "t.example.com")],
        some [("url", "ftp://example.com/x")], none⟩ [] 0 "iso"
        (.success 200 [("content-type", "text/plain")] "ok")).1.statusCode
      = 200 ∧
    alGet (handler ⟨"GET", "/", some [("Host", "t.example.com")],
        some [("url", "ftp://example.com/x")], none⟩ [] 0 "iso"
        (.success 200 [("content-type", "text/plain")] "ok")).1.headers
      "X-Cache" = some "MISS" := by
  decide

/-- Claim C6 (amended): only a missing (or empty, hence falsy) `url` query
parameter produces the 400 reply, and it does so without consulting the
fetch oracle or touching the store; a `url` the WHATWG URL constructor
rejects (e.g. not absolute) is a 500 via the catch block; a well-formed URL
of any other scheme (e.g. `ftp:`) is not rejected. -/
theorem target_url_validation_amended
    (m p u iso : String) (hs : Headers) (qp : List (String × String))
    (b : Option String) (store : Store) (now : Nat) (oc : FetchOutcome) :
    (alGet qp "url" = none →
      handler ⟨m, p, some hs, some qp, b⟩ store now iso oc =
        (badRequestReply, store)) ∧
    (alGet qp "url" = some "" →
      handler ⟨m, p, some hs, some qp, b⟩ store now iso oc =
        (badRequestReply, store)) ∧
    (alGet qp "url" = some u → ¬ u = "" → parseURLScheme u = none →
      (handler ⟨m, p, some hs, some qp, b⟩ [] now iso oc).1 =
        internalErrorReply ("Invalid URL: " ++ u)) := by
  refine ⟨?_, ?_, ?_⟩
  · intro h
    simp [handler, handlerTry, h]
  · intro h
    simp [handler, handlerTry, h]
  · intro h hne hp
    simp [handler, handlerTry, h, hne, getCachedResponse, alGet,
      fetchFromTarget, hp, JsError.message]

/-- Witness for the amended C6: a missing `url` and a malformed `url`. -/
theorem target_url_validation_amended_witness :
    handler ⟨"GET", "/", some [("Host", "t.example.com")], some [("ttl", "1h")],
        none⟩ [] 0 "iso" (.success 200 [] "ok") = (badRequestReply, []) ∧
    (handler ⟨"GET", "/", some [("Host", "t.example.com")],
        some [("url", "notaurl")], none⟩ [] 0 "iso"
        (.success 200 [] "ok")).1 = internalErrorReply "Invalid URL: notaurl" :=
  ⟨(target_url_validation_amended "GET" "/" "notaurl" "iso"
      [("Host", "t.example.com")] [("ttl", "1h")] none [] 0
      (.success 200 [] "ok")).1 (by decide),
   (target_url_validation_amended "GET" "/" "notaurl" "iso"
      [("Host", "t.example.com")] [("url", "notaurl")] none [] 0
      (.success 200 [] "ok")).2.2 (by decide) (by decide) (by decide)⟩

/-- Counterexample to claim C7: `ttl=0s` parses to 0 seconds and the request
is served as a normal MISS (here with upstream status 200), not rejected
with 400. -/
theorem ttl_zero_counterexample :
    parseTTL (some "0s") = 0 ∧
    (handler ⟨"GET", "/", some [("Host", "t.example.com")],
        some [("url", "https://api.example.com/x"), ("ttl", "0s")], none⟩ []
        1000 "iso" (.success 200 [] "ok")).1.statusCode = 200 ∧
    alGet (handler ⟨"GET", "/", some [("Host", "t.example.com")],
        some [("url", "https://api.example.com/x"), ("ttl", "0s")], none⟩ []
        1000 "iso" (.success 200 [] "ok")).1.headers "X-Cache" = some "MISS" ∧
    ¬ ((handler ⟨"GET", "/", some [("Host", "t.example.com")],
        some [("url", "https://api.example.com/x"), ("ttl", "0s")], none⟩ []
        1000 "iso" (.success 200 [] "ok")).1.statusCode = 400) := by
  decide

/-- Claim C7 (amended): `ttl=0s` parses to 0; the cache engine never rejects
it — on a cold cache the request is served as a MISS carrying the upstream
status, and the entry is stored already expired (`expiresAt = now`). -/
theorem ttl_zero_served_as_miss
    (m p u iso rb sch : String) (hs H : Headers)
    (qp : List (String × String)) (b : Option String) (sc now : Nat)
    (hu : alGet qp "url" = some u) (hne : ¬ u = "")
    (ht : alGet qp "ttl" = some "0s") (hp : parseURLScheme u = some sch) :
    parseTTL (alGet qp "ttl") = 0 ∧
    (handler ⟨m, p, some hs, some qp, b⟩ [] now iso
        (.success sc H rb)).1.statusCode = sc ∧
    alGet (handler ⟨m, p, some hs, some qp, b⟩ [] now iso
        (.success sc H rb)).1.headers "X-Cache" = some "MISS" ∧
    alGet (handler ⟨m, p, some hs, some qp, b⟩ [] now iso
        (.success sc H rb)).2
      (s3Key (generateCacheKey (eventSubdomain hs) u [] hs m b (some "0s"))) =
        some ⟨sc, sanitizeUpstreamHeaders H, rb, now, 0, now⟩ := by
  have h00 : parseTTL (some "0s") = 0 := by decide
  have h0 : parseTTL (alGet qp "ttl") = 0 := by rw [ht]; exact h00
  have hmain : handlerTry ⟨m, p, some hs, some qp, b⟩ [] now iso
      (.success sc H rb) =
      (.ok (missReply
          (generateCacheKey (eventSubdomain hs) u [] hs m b (some "0s")) 0 u iso
          ⟨sc, sanitizeUpstreamHeaders H, rb⟩),
       cacheResponse [] now
         (generateCacheKey (eventSubdomain hs) u [] hs m b (some "0s"))
         ⟨sc, sanitizeUpstreamHeaders H, rb⟩ 0) := by
    simp only [handlerTry, Option.getD_some, hu, hne, if_false, ht, h00,
      getCachedResponse, alGet, s3Key, fetchFromTarget, hp]
  refine ⟨h0, ?_, ?_, ?_⟩
  · simp [handler, hmain, missReply]
  · simp only [handler, hmain]
    simp only [missReply]
    rw [alGet_objAssign]
    simp [missUpdates, corsHeaders, lookupLast, alGet]
  · simp [handler, hmain, cacheResponse, alGet_alSet]

/-- Witness for the amended C7 at a concrete request. -/
theorem ttl_zero_served_as_miss_witness :
    parseTTL (alGet [("url", "https://api.example.com/x"), ("ttl", "0s")] "ttl")
      = 0 ∧
    (handler ⟨"GET", "/", some [("Host", "t.example.com")],
        some [("url", "https://api.example.com/x"), ("ttl", "0s")], none⟩ []
        1000 "iso" (.success 200 [] "ok")).1.statusCode = 200 ∧
    alGet (handler ⟨"GET", "/", some [("Host", "t.example.com")],
        some [("url", "https://api.example.com/x"), ("ttl", "0s")], none⟩ []
        1000 "iso" (.success 200 [] "ok")).1.headers "X-Cache" = some "MISS" ∧
    alGet (handler ⟨"GET", "/", some [("Host", "t.example.com")],
        some [("url", "https://api.example.com/x"), ("ttl", "0s")], none⟩ []
        1000 "iso" (.success 200 [] "ok")).2
      (s3Key (generateCacheKey (eventSubdomain [("Host", "t.example.com")])
        "https://api.example.com/x" [] [("Host", "t.example.com")] "GET" none
        (some "0s"))) = some ⟨200, sanitizeUpstreamHeaders [], "ok", 1000, 0, 1000⟩ :=
  ttl_zero_served_as_miss "GET" "/" "https://api.example.com/x" "iso" "ok"
    "https" [("Host", "t.example.com")] []
    [("url", "https://api.example.com/x"), ("ttl", "0s")] none 200 1000
    (by decide) (by decide) (by decide) (by decide)

/-- Counterexample to claim C8: the code never lowercases the Host label.
For `Host: ABC.Example.com` the tenant is `ABC`, not `abc`, and the two
spellings fingerprint to different cache keys. -/
theorem tenant_case_counterexample :
    eventSubdomain [("Host", "ABC.Example.com")] = "ABC" ∧
    ¬ (eventSubdomain [("Host", "ABC.Example.com")] = "abc") ∧
    ¬ (generateCacheKey "ABC" "https://x" [] [] "GET" none none =
       generateCacheKey "abc" "https://x" [] [] "GET" none none) := by
  decide

/-- Claim C8 (amended): the tenant passed to the fingerprint is the leftmost
dot-separated label of the Host header taken verbatim (no lowercasing), where
`Host` is preferred over `host`; it is `"default"` when the Host header is
absent or empty. -/
theorem tenant_label_verbatim (hs : Headers) (h : String) :
    (jsHost hs = some h → ¬ h = "" →
      eventSubdomain hs = String.mk (h.data.takeWhile (fun c => ¬ (c = '.')))) ∧
    (jsHost hs = none → eventSubdomain hs = "default") ∧
    (jsHost hs = some "" → eventSubdomain hs = "default") := by
  refine ⟨?_, ?_, ?_⟩
  · intro h1 h2
    simp [eventSubdomain, h1, h2, splitHeadDot]
  · intro h1
    simp [eventSubdomain, h1]
  · intro h1
    simp [eventSubdomain, h1]

/-- Witness for the amended C8 at a mixed-case Host header. -/
theorem tenant_label_verbatim_witness :
    eventSubdomain [("Host", "ABC.Example.com")] =
      String.mk ("ABC.Example.com".data.takeWhile (fun c => ¬ (c = '.'))) :=
  (tenant_label_verbatim [("Host", "ABC.Example.com")] "ABC.Example.com").1
    (by decide) (by decide)

/-- Counterexample to claim C9: `999999999d` multiplies out to
86,399,999,913,600 seconds, far above 2³¹−1, and `parseTTL` returns the full
product — there is no cap. -/
theorem ttl_overflow_cap_counterexample :
    parseTTL (some "999999999d") = 86399999913600 ∧
    ¬ (parseTTL (some "999999999d") = 2147483647) := by
  decide

/-- The unit factor of the TTL grammar, as the specification words it. -/
def specUnitFactor : Char → Nat
  | 's' => 1
  | 'm' => 60
  | 'h' => 3600
  | 'd' => 86400
  | _ => 0

theorem takeWhile_append_all (p : Char → Bool) (ds rest : List Char)
    (h : ∀ c ∈ ds, p c = true) :
    (ds ++ rest).takeWhile p = ds ++ rest.takeWhile p := by
  induction ds with
  | nil => simp
  | cons d dt ih =>
    simp [List.takeWhile_cons, h d (List.mem_cons_self d dt),
      ih (fun c hc => h c (List.mem_cons_of_mem d hc))]

theorem dropWhile_append_all (p : Char → Bool) (ds rest : List Char)
    (h : ∀ c ∈ ds, p c = true) :
    (ds ++ rest).dropWhile p = rest.dropWhile p := by
  induction ds with
  | nil => simp
  | cons d dt ih =>
    simp [List.dropWhile_cons, h d (List.mem_cons_self d dt),
      ih (fun c hc => h c (List.mem_cons_of_mem d hc))]

/-- Claim C9 (amended): on every input matching `^[0-9]+[smhd]$`, `parseTTL`
returns the numeric value times the unit factor exactly — there is no cap at
2³¹−1 (the multiplication is exact for any product a JS double represents
exactly). -/
theorem parseTTL_product_uncapped (ds : List Char) (u : Char)
    (hne : ¬ ds = []) (hds : ∀ c ∈ ds, c.isDigit = true)
    (hu : u = 's' ∨ u = 'm' ∨ u = 'h' ∨ u = 'd') :
    parseTTL (some (String.mk (ds ++ [u]))) = digitsToNat ds * specUnitFactor u := by
  have hud : u.isDigit = false := by
    rcases hu with rfl | rfl | rfl | rfl <;> decide
  have htake : (ds ++ [u]).takeWhile Char.isDigit = ds := by
    rw [takeWhile_append_all Char.isDigit ds [u] hds]
    simp [List.takeWhile_cons, hud]
  have hdrop : (ds ++ [u]).dropWhile Char.isDigit = [u] := by
    rw [dropWhile_append_all Char.isDigit ds [u] hds]
    simp [List.dropWhile_cons, hud]
  have hne2 : ¬ (String.mk (ds ++ [u]) = "") := by
    simp [String.ext_iff]
  have hmatch : ttlMatch (String.mk (ds ++ [u])) = some (digitsToNat ds, u) := by
    simp only [ttlMatch, htake, hdrop]
    cases ds with
    | nil => exact absurd rfl hne
    | cons d dt =>
      rcases hu with rfl | rfl | rfl | rfl <;> simp
  simp only [parseTTL, hne2, if_false, hmatch]
  rcases hu with rfl | rfl | rfl | rfl <;> simp [specUnitFactor]

/-- Witness for the amended C9: `999d` is 999 · 86400 = 86,313,600 seconds. -/
theorem parseTTL_product_uncapped_witness :
    parseTTL (some (String.mk (['9', '9', '9'] ++ ['d']))) =
      digitsToNat ['9', '9', '9'] * specUnitFactor 'd' :=
  parseTTL_product_uncapped ['9', '9', '9'] 'd' (by decide) (by decide)
    (by decide)

/-- Claim C10: the handler is total — `handlerTry` either returns a reply or
an exception value, and the catch block turns every exception (including the
`TypeError` from a missing `event.headers` map and any upstream failure) into
a 500 reply whose JSON body has `error` and `message` fields and whose
headers carry `Access-Control-Allow-Origin: *`. -/
theorem handler_error_fallback_500
    (e : LambdaEvent) (store : Store) (now : Nat) (iso : String)
    (oc : FetchOutcome) (err : JsError) (st : Store) :
    (handlerTry e store now iso oc = (Except.error err, st) →
      (handler e store now iso oc).1.statusCode = 500 ∧
      alGet (handler e store now iso oc).1.headers
        "Access-Control-Allow-Origin" = some "*" ∧
      (handler e store now iso oc).1.body =
        "\x7b\"error\":\"Internal server error\",\"message\":\"" ++
          jsonEscape err.message ++ "\"\x7d") ∧
    (e.headers = none → (handler e store now iso oc).1.statusCode = 500) := by
  constructor
  · intro h
    refine ⟨?_, ?_, ?_⟩ <;> simp [handler, h, internalErrorReply, alGet]
  · intro h
    simp [handler, handlerTry, h, internalErrorReply]

/-- Witness for C10: an event with no headers map falls into the catch block
and yields the 500 JSON reply. -/
theorem handler_error_fallback_500_witness :
    ((handler ⟨"GET", "/", none, some [("url", "https://x")], none⟩ [] 0 "iso"
        .timeout).1.statusCode = 500 ∧
     alGet (handler ⟨"GET", "/", none, some [("url", "https://x")], none⟩ [] 0
        "iso" .timeout).1.headers "Access-Control-Allow-Origin" = some "*" ∧
     (handler ⟨"GET", "/", none, some [("url", "https://x")], none⟩ [] 0 "iso"
        .timeout).1.body =
       "\x7b\"error\":\"Internal server error\",\"message\":\"" ++
         jsonEscape (JsError.typeError
           "Cannot read properties of undefined (reading Host)").message ++
         "\"\x7d") ∧
    (handler ⟨"GET", "/", none, some [("url", "https://x")], none⟩ [] 0 "iso"
        .timeout).1.statusCode = 500 :=
  ⟨(handler_error_fallback_500 ⟨"GET", "/", none, some [("url", "https://x")],
      none⟩ [] 0 "iso" .timeout
      (.typeError "Cannot read properties of undefined (reading Host)") []).1
      rfl,
   (handler_error_fallback_500 ⟨"GET", "/", none, some [("url", "https://x")],
      none⟩ [] 0 "iso" .timeout
      (.typeError "Cannot read properties of undefined (reading Host)") []).2
      rfl⟩

end Dejafoo

